import Mathlib

/-!
Shallow embedding of the base-knowledge document service:
the document/chunk data model (src/shared/models/document.py),
the repository layer (src/shared/repository/document_repository.py),
the ingestion pipeline (src/document-service/services/document_processor.py)
and the document update route (src/document-service/routes/documents.py).

Conventions of the embedding:
* the relational store is a record of in-memory tables; every repository
  method that commits is an atomic state transformer (the source commits
  before returning, and a raised error before commit rolls the
  transaction back, leaving the store unchanged);
* timestamps are abstract Nat clock values passed explicitly where the
  source calls datetime.utcnow / func.now;
* JSON metadata blobs are opaque strings;
* embedding vectors are lists of rationals; the pgvector cosine_distance
  operator is an abstract distance function parameter, since vector
  arithmetic happens inside the database extension;
* external collaborators (Docling converter, chunker, OpenAI embedder)
  enter as Except-valued inputs, one per external call.
-/

namespace BaseKnowledge

/-- Processing status enum DocumentStatus from src/shared/models/document.py. -/
inductive DocumentStatus where
  | processing
  | completed
  | failed
deriving DecidableEq, Repr

/-- Row of the documents table (model Document in src/shared/models/document.py).
`doc_metadata` is an opaque JSON blob. `updated_at` has onupdate=func.now(),
so every committed UPDATE of the row stamps it. -/
structure Document where
  id : Nat
  filename : String
  file_extension : String
  file_size : Nat
  status : DocumentStatus
  error_message : Option String
  markdown_content : Option String
  markdown_length : Option Nat
  num_chunks : Nat
  chunk_size : Nat
  embedding_model : String
  embedding_dimension : Nat
  doc_metadata : String
  created_at : Nat
  updated_at : Option Nat
  completed_at : Option Nat
deriving DecidableEq, Repr

/-- Row of the document_chunks table (model DocumentChunk in
src/shared/models/document.py). The embedding column is Vector(1536),
nullable. -/
structure DocumentChunk where
  id : Nat
  document_id : Nat
  chunk_index : Nat
  text : String
  text_length : Nat
  embedding : Option (List ℚ)
  chunk_metadata : String
  created_at : Nat
deriving DecidableEq, Repr

/-- Dimension of the embedding column, Vector(1536) in the model and
EMBEDDING_DIMENSION in document_processor.py. -/
def EMBEDDING_DIMENSION : Nat := 1536

/-- The relational store: the two tables plus the id sequence for chunks. -/
structure DB where
  documents : List Document
  chunks : List DocumentChunk
  nextChunkId : Nat
deriving Repr

/-- DocumentRepository.get_document: first row whose id matches. -/
def get_document (db : DB) (document_id : Nat) : Option Document :=
  db.documents.find? (fun d => d.id == document_id)

/-- Apply an UPDATE to every row of the documents table matching the id
(the primary key is unique, so at most one row in a well-formed store). -/
def updateWhere (l : List Document) (document_id : Nat) (f : Document → Document) :
    List Document :=
  l.map (fun d => if d.id == document_id then f d else d)

/-- DocumentRepository.update_document_status (lines 73-94): fetches the
document; if present, sets status, overwrites error_message with the given
value unconditionally, stamps completed_at only when the new status is
COMPLETED, and commits (which fires onupdate on updated_at). Returns the
refreshed row, or none when the id is missing (logged no-op). -/
def update_document_status (db : DB) (document_id : Nat) (status : DocumentStatus)
    (error_message : Option String) (now : Nat) : Option Document × DB :=
  match db.documents.find? (fun d => d.id == document_id) with
  | some _ =>
      let docs := updateWhere db.documents document_id (fun d =>
        { d with
          status := status
          error_message := error_message
          completed_at := if status == DocumentStatus.completed then some now else d.completed_at
          updated_at := some now })
      (docs.find? (fun d => d.id == document_id), { db with documents := docs })
  | none => (none, db)

/-- DocumentRepository.update_document_content (lines 96-116): sets the
markdown content, its length and num_chunks, commits (stamping updated_at);
no-op returning none when the id is missing. -/
def update_document_content (db : DB) (document_id : Nat) (markdown_content : String)
    (markdown_length : Nat) (num_chunks : Nat) (now : Nat) : Option Document × DB :=
  match db.documents.find? (fun d => d.id == document_id) with
  | some _ =>
      let docs := updateWhere db.documents document_id (fun d =>
        { d with
          markdown_content := some markdown_content
          markdown_length := some markdown_length
          num_chunks := num_chunks
          updated_at := some now })
      (docs.find? (fun d => d.id == document_id), { db with documents := docs })
  | none => (none, db)

/-- DocumentRepository.delete_document (lines 118-128): when the document
exists, deletes it, cascading to its chunks (relationship cascade
all, delete-orphan and FK ON DELETE CASCADE), and returns true; otherwise
returns false with the store untouched. -/
def delete_document (db : DB) (document_id : Nat) : Bool × DB :=
  match db.documents.find? (fun d => d.id == document_id) with
  | some _ =>
      (true,
        { db with
          documents := db.documents.filter (fun d => d.id != document_id)
          chunks := db.chunks.filter (fun c => c.document_id != document_id) })
  | none => (false, db)

/-- One element of the chunks_data list handed to create_chunks_batch. -/
structure ChunkInsert where
  chunk_index : Nat
  text : String
  embedding : Option (List ℚ)
  chunk_metadata : String
deriving DecidableEq, Repr

/-- Database-side validity of one chunk row at flush time: the embedding
column is Vector(1536), so a present vector of any other length makes the
INSERT fail. -/
def chunkRowOk (c : ChunkInsert) : Bool :=
  match c.embedding with
  | none => true
  | some v => v.length == EMBEDDING_DIMENSION

/-- Rows built by DocumentRepository.create_chunks_batch before the bulk
save: text_length is len(text), ids come from the sequence. -/
def buildChunkRows (document_id firstId now : Nat) (chunks_data : List ChunkInsert) :
    List DocumentChunk :=
  chunks_data.enum.map (fun p =>
    { id := firstId + p.1
      document_id := document_id
      chunk_index := p.2.chunk_index
      text := p.2.text
      text_length := p.2.text.length
      embedding := p.2.embedding
      chunk_metadata := p.2.chunk_metadata
      created_at := now })

/-- DocumentRepository.create_chunks_batch (lines 154-177): builds all rows,
bulk-saves them and commits once. If the flush fails on any row (foreign key
to a missing document, or an embedding of the wrong length for the
Vector(1536) column), the commit is never reached and the transaction rolls
back, so the store is unchanged; on success all rows are inserted. -/
def create_chunks_batch (db : DB) (document_id : Nat) (chunks_data : List ChunkInsert)
    (now : Nat) : Except String (List DocumentChunk) × DB :=
  if db.documents.any (fun d => d.id == document_id) && chunks_data.all chunkRowOk then
    let rows := buildChunkRows document_id db.nextChunkId now chunks_data
    (Except.ok rows,
      { db with chunks := db.chunks ++ rows, nextChunkId := db.nextChunkId + rows.length })
  else
    (Except.error "chunk batch insert failed", db)

/-- DocumentRepository.get_chunks_by_document (lines 183-192): chunks of the
document ordered by chunk_index ascending, with offset and limit. -/
def get_chunks_by_document (db : DB) (document_id : Nat)
    (skip : Nat := 0) (limit : Nat := 100) : List DocumentChunk :=
  ((((db.chunks.filter (fun c => c.document_id == document_id)).mergeSort
      (fun a b => a.chunk_index ≤ b.chunk_index)).drop skip).take limit)

/-- DocumentRepository.get_chunk_count (lines 248-253) with a document
scope given. -/
def get_chunk_count (db : DB) (document_id : Nat) : Nat :=
  (db.chunks.filter (fun c => c.document_id == document_id)).length

/-- Candidate set of search_similar_chunks: the filter on line 217 is the
Python truthiness test `if document_id:`, so the scope is applied only when
the argument is a nonzero id; passing 0 (or None) searches every chunk. -/
def search_candidates (db : DB) (document_id : Option Nat) : List DocumentChunk :=
  match document_id with
  | some d => if d != 0 then db.chunks.filter (fun c => c.document_id == d) else db.chunks
  | none => db.chunks

/-- Ascending order on the distance column: a NULL distance (chunk with a
NULL embedding) sorts last, as in Postgres ORDER BY ASC. -/
def optDistLE : Option ℚ → Option ℚ → Bool
  | none, none => true
  | none, some _ => false
  | some _, none => true
  | some a, some b => a ≤ b

/-- DocumentRepository.search_similar_chunks (lines 194-222): selects every
candidate chunk together with its cosine distance to the query embedding
(computed by pgvector, abstracted as dist; NULL when the stored embedding is
NULL), orders by distance ascending and limits. Default limit is 10. -/
def search_similar_chunks (db : DB) (dist : List ℚ → List ℚ → ℚ) (embedding : List ℚ)
    (limit : Nat := 10) (document_id : Option Nat := none) :
    List (DocumentChunk × Option ℚ) :=
  (((search_candidates db document_id).map
      (fun c => (c, c.embedding.map (fun e => dist e embedding)))).mergeSort
    (fun a b => optDistLE a.2 b.2)).take limit

/-! ## Ingestion pipeline (src/document-service/services/document_processor.py) -/

/-- Result of a successful Docling conversion: the converted document, of
which the pipeline uses only the Markdown export. -/
structure MarkdownDoc where
  markdown : String
deriving DecidableEq, Repr

/-- One element of the list produced by hybrid_chunk_document: chunk text
plus the structural metadata blob (doc_items, headings). -/
structure ChunkData where
  text : String
  meta : String
deriving DecidableEq, Repr

/-- One element of the list produced by generate_embeddings
(document_processor.py lines 160-168). -/
structure EmbeddingData where
  chunk_id : Nat
  text : String
  metadata : String
  embedding : List ℚ
  embedding_dimension : Nat
deriving DecidableEq, Repr

/-- convert_document (lines 100-111): the Docling converter is an external
call; on its failure the function raises HTTPException 500 with the wrapped
message. -/
def convert_document (converter : Except String MarkdownDoc) : Except String MarkdownDoc :=
  match converter with
  | Except.ok d => Except.ok d
  | Except.error e => Except.error ("500: Document conversion failed: " ++ e)

/-- hybrid_chunk_document (lines 114-143): the HybridChunker is an external
call; on its failure the function raises HTTPException 500 with the wrapped
message. -/
def hybrid_chunk_document (chunker : Except String (List ChunkData)) :
    Except String (List ChunkData) :=
  match chunker with
  | Except.ok cs => Except.ok cs
  | Except.error e => Except.error ("500: Text chunking failed: " ++ e)

/-- The embeddings_data list built by generate_embeddings (lines 160-168):
the chunks zipped with the returned vectors (zip truncates to the shorter
list) and numbered by position. -/
def embeddingsOf (chunks : List ChunkData) (embedding_vectors : List (List ℚ)) :
    List EmbeddingData :=
  (chunks.zip embedding_vectors).enum.map (fun p =>
    { chunk_id := p.1
      text := p.2.1.text
      metadata := p.2.1.meta
      embedding := p.2.2
      embedding_dimension := p.2.2.length })

/-- generate_embeddings (lines 146-175): one batched embed_documents call on
all chunk texts; the results are zipped with the chunks and numbered by
position; any error is wrapped into HTTPException 500. -/
def generate_embeddings (chunks : List ChunkData)
    (embed_documents : List String → Except String (List (List ℚ))) :
    Except String (List EmbeddingData) :=
  match embed_documents (chunks.map (fun c => c.text)) with
  | Except.error e => Except.error ("500: Embedding generation failed: " ++ e)
  | Except.ok embedding_vectors => Except.ok (embeddingsOf chunks embedding_vectors)

/-- The chunks_data list built by process_document_task (lines 220-228)
from the embeddings data. -/
def chunksDataOf (embeddings_data : List EmbeddingData) : List ChunkInsert :=
  embeddings_data.map (fun d =>
    { chunk_index := d.chunk_id
      text := d.text
      embedding := some d.embedding
      chunk_metadata := d.metadata })

/-- Status of the in-memory job record (jobs_storage values, created in
routes/upload.py lines 89-98). -/
inductive JobStatus where
  | processing
  | completed
  | failed
deriving DecidableEq, Repr

/-- The result payload stored on the job on success (the fields of
DocumentProcessingResponse that the embedding tracks). -/
structure ProcResult where
  status : String
  filename : String
  markdown_length : Nat
  num_chunks : Nat
deriving DecidableEq, Repr

/-- One jobs_storage entry. -/
structure Job where
  job_id : String
  document_id : Nat
  status : JobStatus
  filename : String
  created_at : Nat
  completed_at : Option Nat
  error : Option String
  result : Option ProcResult
deriving DecidableEq, Repr

/-- State touched by one pipeline run: the store, the temporary uploaded
file, and the run's own jobs_storage entry. -/
structure PipeState where
  db : DB
  tmpFileExists : Bool
  job : Job
deriving Repr

/-- The except-branch of process_document_task (lines 267-282): mark the
document FAILED with the error message, remove the temporary file
(exceptions swallowed), and mark the job failed with the same message. -/
def pipeline_fail (document_id : Nat) (e : String) (now : Nat) (st : PipeState) : PipeState :=
  let r := update_document_status st.db document_id DocumentStatus.failed (some e) now
  { db := r.2
    tmpFileExists := false
    job := { st.job with status := JobStatus.failed, completed_at := some now, error := some e } }

/-- process_document_task (lines 178-284): convert, export Markdown, chunk,
embed, then persist (content update, bulk chunk insert, status COMPLETED),
remove the temporary file and mark the job completed; any raised error goes
through the except-branch pipeline_fail. The external collaborator outcomes
are the converter, chunker and embedder arguments. -/
def process_document_task (document_id : Nat) (filename : String) (chunk_size : Nat)
    (converter : Except String MarkdownDoc)
    (chunker : MarkdownDoc → Nat → Except String (List ChunkData))
    (embed_documents : List String → Except String (List (List ℚ)))
    (now : Nat) (st : PipeState) : PipeState :=
  match convert_document converter with
  | Except.error e => pipeline_fail document_id e now st
  | Except.ok doc =>
    let markdown_content := doc.markdown
    match hybrid_chunk_document (chunker doc chunk_size) with
    | Except.error e => pipeline_fail document_id e now st
    | Except.ok chunks =>
      match generate_embeddings chunks embed_documents with
      | Except.error e => pipeline_fail document_id e now st
      | Except.ok embeddings_data =>
        let r1 := update_document_content st.db document_id markdown_content
          markdown_content.length chunks.length now
        let chunks_data := chunksDataOf embeddings_data
        match create_chunks_batch r1.2 document_id chunks_data now with
        | (Except.error e, db2) => pipeline_fail document_id e now { st with db := db2 }
        | (Except.ok _, db2) =>
          let r3 := update_document_status db2 document_id DocumentStatus.completed none now
          { db := r3.2
            tmpFileExists := false
            job := { st.job with
              status := JobStatus.completed
              completed_at := some now
              result := some
                { status := "success"
                  filename := filename
                  markdown_length := markdown_content.length
                  num_chunks := chunks.length } } }

/-- update_document route (src/document-service/routes/documents.py lines
115-149): 404 when the document is missing; otherwise, when a filename is
supplied it is written and committed (the commit fires onupdate on
updated_at); when no field is supplied nothing is written. The first
component mirrors the response (message, updated_fields filename). -/
def update_document_route (db : DB) (document_id : Nat) (filename : Option String)
    (now : Nat) : Except String (String × Option String) × DB :=
  match db.documents.find? (fun d => d.id == document_id) with
  | none => (Except.error "404: Document not found", db)
  | some _ =>
    match filename with
    | some f =>
        let docs := updateWhere db.documents document_id (fun d =>
          { d with filename := f, updated_at := some now })
        (Except.ok ("Document updated successfully", some f), { db with documents := docs })
    | none => (Except.ok ("No fields to update", none), db)

/-! ## Helper lemmas about the repository operations -/

theorem optDistLE_trans (a b c : Option ℚ) (hab : optDistLE a b = true)
    (hbc : optDistLE b c = true) : optDistLE a c = true := by
  cases a <;> cases b <;> cases c <;> simp_all [optDistLE]
  exact le_trans hab hbc

theorem optDistLE_total (a b : Option ℚ) : (optDistLE a b || optDistLE b a) = true := by
  cases a <;> cases b <;> simp [optDistLE]
  exact le_total _ _

theorem find?_updateWhere (l : List Document) (document_id : Nat) (f : Document → Document)
    (hf : ∀ d, (f d).id = d.id) :
    (updateWhere l document_id f).find? (fun d => d.id == document_id) =
      (l.find? (fun d => d.id == document_id)).map f := by
  induction l with
  | nil => rfl
  | cons a t ih =>
      have e1 : updateWhere (a :: t) document_id f =
          (if a.id == document_id then f a else a) :: updateWhere t document_id f := rfl
      by_cases h : (a.id == document_id) = true
      · have hfa : ((f a).id == document_id) = true := by rw [hf a]; exact h
        rw [e1, if_pos h, List.find?_cons, List.find?_cons, hfa, h]
        rfl
      · have h' : (a.id == document_id) = false := by
          revert h
          cases a.id == document_id <;> simp
        rw [e1, if_neg h, List.find?_cons, List.find?_cons, h']
        exact ih

theorem update_document_status_chunks (db : DB) (document_id : Nat)
    (status : DocumentStatus) (error_message : Option String) (now : Nat) :
    (update_document_status db document_id status error_message now).2.chunks = db.chunks := by
  unfold update_document_status
  cases db.documents.find? (fun d => d.id == document_id) <;> rfl

theorem update_document_content_chunks (db : DB) (document_id : Nat) (mc : String)
    (ml : Nat) (k : Nat) (now : Nat) :
    (update_document_content db document_id mc ml k now).2.chunks = db.chunks := by
  unfold update_document_content
  cases db.documents.find? (fun d => d.id == document_id) <;> rfl

theorem get_document_update_document_status (db : DB) (document_id : Nat)
    (status : DocumentStatus) (error_message : Option String) (now : Nat) (d : Document)
    (h : get_document db document_id = some d) :
    (update_document_status db document_id status error_message now).1 =
      some { d with
        status := status
        error_message := error_message
        completed_at := if status == DocumentStatus.completed then some now else d.completed_at
        updated_at := some now } ∧
    get_document (update_document_status db document_id status error_message now).2 document_id =
      some { d with
        status := status
        error_message := error_message
        completed_at := if status == DocumentStatus.completed then some now else d.completed_at
        updated_at := some now } := by
  unfold update_document_status
  unfold get_document at h ⊢
  rw [h]
  constructor
  · simp only
    rw [find?_updateWhere]
    · rw [h]
      rfl
    · intro x
      rfl
  · simp only
    rw [find?_updateWhere]
    · rw [h]
      rfl
    · intro x
      rfl

theorem get_document_update_document_content (db : DB) (document_id : Nat) (mc : String)
    (ml : Nat) (k : Nat) (now : Nat) (d : Document)
    (h : get_document db document_id = some d) :
    get_document (update_document_content db document_id mc ml k now).2 document_id =
      some { d with
        markdown_content := some mc
        markdown_length := some ml
        num_chunks := k
        updated_at := some now } := by
  unfold update_document_content
  unfold get_document at h ⊢
  rw [h]
  simp only
  rw [find?_updateWhere]
  · rw [h]
    rfl
  · intro x
    rfl

theorem create_chunks_batch_documents (db : DB) (document_id : Nat)
    (chunks_data : List ChunkInsert) (now : Nat) :
    (create_chunks_batch db document_id chunks_data now).2.documents = db.documents := by
  unfold create_chunks_batch
  by_cases h : (db.documents.any (fun d => d.id == document_id) && chunks_data.all chunkRowOk) = true
  · rw [if_pos h]
  · rw [if_neg h]

theorem buildChunkRows_length (document_id firstId now : Nat) (l : List ChunkInsert) :
    (buildChunkRows document_id firstId now l).length = l.length := by
  simp [buildChunkRows]

theorem buildChunkRows_document_id (document_id firstId now : Nat) (l : List ChunkInsert)
    (c : DocumentChunk) (hc : c ∈ buildChunkRows document_id firstId now l) :
    c.document_id = document_id := by
  simp only [buildChunkRows, List.mem_map] at hc
  obtain ⟨p, _, rfl⟩ := hc
  rfl

theorem buildChunkRows_chunk_index (document_id firstId now : Nat) (l : List ChunkInsert) :
    (buildChunkRows document_id firstId now l).map (fun c => c.chunk_index) =
      l.map (fun c => c.chunk_index) := by
  simp only [buildChunkRows, List.map_map]
  have : ((fun c : DocumentChunk => c.chunk_index) ∘ (fun p : Nat × ChunkInsert =>
      ({ id := firstId + p.1, document_id := document_id, chunk_index := p.2.chunk_index,
         text := p.2.text, text_length := p.2.text.length, embedding := p.2.embedding,
         chunk_metadata := p.2.chunk_metadata, created_at := now } : DocumentChunk))) =
      (fun c : ChunkInsert => c.chunk_index) ∘ Prod.snd := rfl
  rw [this, ← List.map_map, List.enum_map_snd]

theorem get_chunk_count_append_rows (db : DB) (document_id firstId now : Nat)
    (chunks_data : List ChunkInsert) :
    ((db.chunks ++ buildChunkRows document_id firstId now chunks_data).filter
        (fun c => c.document_id == document_id)).length =
      (db.chunks.filter (fun c => c.document_id == document_id)).length +
        chunks_data.length := by
  rw [List.filter_append, List.length_append]
  congr 1
  rw [List.filter_eq_self.mpr, buildChunkRows_length]
  intro c hc
  simp [buildChunkRows_document_id _ _ _ _ c hc]

/-- C1. For every document id and batch handed to createChunksBatch,
persistence is all-or-nothing: when the bulk insert fails (for instance on
an embedding whose length does not match the Vector(1536) column, or on a
missing parent document) the store is unchanged and no chunk of the batch
is persisted; on success every row of the batch is persisted in the single
committed transaction, appended to the chunks table. -/
theorem C1_chunk_batch_atomicity (db : DB) (document_id : Nat)
    (chunks_data : List ChunkInsert) (now : Nat) :
    match create_chunks_batch db document_id chunks_data now with
    | (Except.error _, db2) => db2 = db
    | (Except.ok rows, db2) =>
        db2.chunks = db.chunks ++ rows ∧ rows.length = chunks_data.length ∧
        get_chunk_count db2 document_id = get_chunk_count db document_id + chunks_data.length := by
  unfold create_chunks_batch
  by_cases h : (db.documents.any (fun d => d.id == document_id) && chunks_data.all chunkRowOk) = true
  · rw [if_pos h]
    refine ⟨rfl, buildChunkRows_length _ _ _ _, ?_⟩
    unfold get_chunk_count
    exact get_chunk_count_append_rows db document_id db.nextChunkId now chunks_data
  · rw [if_neg h]

/-- C8. In a store satisfying the foreign-key constraint (every chunk
belongs to an existing document), deleteDocument returns true exactly when
the document exists, and afterwards the document is gone and its chunk set
is empty: getDocument is not-found and getChunksByDocument returns the
empty sequence for every offset and limit. -/
theorem C8_delete_document_cascades (db : DB) (document_id : Nat)
    (hFK : ∀ c ∈ db.chunks, ∃ dd ∈ db.documents, dd.id = c.document_id) :
    (delete_document db document_id).1 = (get_document db document_id).isSome ∧
    get_document (delete_document db document_id).2 document_id = none ∧
    ∀ skip limit,
      get_chunks_by_document (delete_document db document_id).2 document_id skip limit = [] := by
  unfold delete_document get_document get_chunks_by_document
  cases hf : db.documents.find? (fun d => d.id == document_id) with
  | none =>
      refine ⟨rfl, hf, ?_⟩
      intro skip limit
      have hnone : ∀ dd ∈ db.documents, dd.id ≠ document_id := by
        intro dd hdd
        have := List.find?_eq_none.mp hf dd hdd
        simpa using this
      have : db.chunks.filter (fun c => c.document_id == document_id) = [] := by
        apply List.filter_eq_nil_iff.mpr
        intro c hc
        obtain ⟨dd, hdd, hid⟩ := hFK c hc
        simp only [beq_iff_eq]
        intro hcd
        exact hnone dd hdd (hid.trans hcd)
      simp [this]
  | some d =>
      refine ⟨rfl, ?_, ?_⟩
      · apply List.find?_eq_none.mpr
        intro x hx
        have := (List.mem_filter.mp hx).2
        simpa using this
      · intro skip limit
        have : ((db.chunks.filter (fun c => c.document_id != document_id)).filter
            (fun c => c.document_id == document_id)) = [] := by
          apply List.filter_eq_nil_iff.mpr
          intro c hc
          have := (List.mem_filter.mp hc).2
          simpa using this
        simp [this]

/-! ## Concrete example store used by witnesses and counterexamples -/

/-- A completed example document with id 1. -/
def docA : Document :=
  { id := 1, filename := "a.pdf", file_extension := ".pdf", file_size := 3,
    status := DocumentStatus.completed, error_message := none,
    markdown_content := none, markdown_length := none, num_chunks := 1,
    chunk_size := 512, embedding_model := "text-embedding-3-small",
    embedding_dimension := 1536, doc_metadata := "", created_at := 0,
    updated_at := none, completed_at := some 1 }

/-- A chunk of docA (embedding still NULL). -/
def chunkA : DocumentChunk :=
  { id := 1, document_id := 1, chunk_index := 0, text := "alpha", text_length := 5,
    embedding := none, chunk_metadata := "", created_at := 0 }

/-- Store holding docA and its single chunk. -/
def dbA : DB := { documents := [docA], chunks := [chunkA], nextChunkId := 2 }

/-- Chunk number i of document 1, used to populate a six-chunk store. -/
def mkChunkB (i : Nat) : DocumentChunk :=
  { id := i + 1, document_id := 1, chunk_index := i, text := "t", text_length := 1,
    embedding := none, chunk_metadata := "", created_at := 0 }

/-- Store holding docA and six chunks. -/
def dbB : DB := { documents := [docA], chunks := (List.range 6).map mkChunkB, nextChunkId := 7 }

/-! ## Claims about the search layer -/

/-- C4. For every query embedding and every k, searchSimilar returns a
sequence of (chunk, distance) pairs ordered by non-decreasing distance
(closest first; a NULL distance from a NULL embedding sorts last), with
result count at most k and at most the number of candidate chunks. -/
theorem C4_search_ordering (db : DB) (dist : List ℚ → List ℚ → ℚ) (embedding : List ℚ)
    (limit : Nat) (document_id : Option Nat) :
    List.Pairwise (fun a b => optDistLE a.2 b.2 = true)
        (search_similar_chunks db dist embedding limit document_id) ∧
    (search_similar_chunks db dist embedding limit document_id).length ≤ limit ∧
    (search_similar_chunks db dist embedding limit document_id).length ≤
      (search_candidates db document_id).length := by
  unfold search_similar_chunks
  refine ⟨?_, List.length_take_le _ _, ?_⟩
  · refine List.Pairwise.sublist (List.take_sublist _ _) ?_
    apply List.sorted_mergeSort
    · exact fun a b c hab hbc => optDistLE_trans _ _ _ hab hbc
    · exact fun a b => optDistLE_total _ _
  · calc ((((search_candidates db document_id).map
          (fun c => (c, c.embedding.map (fun e => dist e embedding)))).mergeSort
            (fun a b => optDistLE a.2 b.2)).take limit).length
        ≤ (((search_candidates db document_id).map
          (fun c => (c, c.embedding.map (fun e => dist e embedding)))).mergeSort
            (fun a b => optDistLE a.2 b.2)).length := (List.take_sublist _ _).length_le
      _ = ((search_candidates db document_id).map
          (fun c => (c, c.embedding.map (fun e => dist e embedding)))).length :=
            List.length_mergeSort _
      _ = (search_candidates db document_id).length := List.length_map _ _

/-- C5 counterexample. The claim quantifies over every document id, but the
scope filter on line 217 of document_repository.py is the Python truthiness
test `if document_id:`, so a search scoped to document id 0 skips the filter
and can return chunks of other documents: in the store dbA, scoping to 0
returns the chunk of document 1. -/
theorem C5_counterexample_zero_id :
    ¬ (∀ (D : Nat) (p : DocumentChunk × Option ℚ),
        p ∈ search_similar_chunks dbA (fun _ _ => 0) [] 10 (some D) →
        p.1.document_id = D) := by
  intro hclaim
  have hmem : (chunkA, (none : Option ℚ)) ∈
      search_similar_chunks dbA (fun _ _ => 0) [] 10 (some 0) := by
    unfold search_similar_chunks
    have hc : search_candidates dbA (some 0) = [chunkA] := rfl
    rw [hc]
    simp [List.mergeSort_singleton, chunkA]
  exact absurd (hclaim 0 (chunkA, none) hmem) (by decide)

/-- C5 amended. For every nonzero document id D, searchSimilar called with
documentId = D returns only chunks whose document_id equals D (the
candidate set is restricted to that document before ranking); the id 0 is
treated like no scope by the truthiness test. -/
theorem C5_amended_scoped_search (db : DB) (dist : List ℚ → List ℚ → ℚ)
    (embedding : List ℚ) (limit : Nat) (D : Nat) (hD : D ≠ 0) :
    ∀ p ∈ search_similar_chunks db dist embedding limit (some D),
      p.1.document_id = D := by
  intro p hp
  unfold search_similar_chunks at hp
  have hp2 := (List.take_sublist _ _).mem hp
  have hp3 := (List.mergeSort_perm _ _).mem_iff.mp hp2
  rw [List.mem_map] at hp3
  obtain ⟨c, hc, rfl⟩ := hp3
  have hD2 : (D != 0) = true := by simpa using hD
  have hcand : search_candidates db (some D) =
      if (D != 0) = true then db.chunks.filter (fun c => c.document_id == D)
      else db.chunks := rfl
  rw [hcand, if_pos hD2] at hc
  have := (List.mem_filter.mp hc).2
  simpa using this

/-- Witness for the amended C5 at the concrete store dbA with scope 1. -/
theorem C5_amended_scoped_search_witness : chunkA.document_id = 1 :=
  C5_amended_scoped_search dbA (fun _ _ => 0) [] 10 1 (by decide)
    (chunkA, none)
    (by
      unfold search_similar_chunks
      have hc : search_candidates dbA (some 1) = [chunkA] := rfl
      rw [hc]
      simp [List.mergeSort_singleton, chunkA])

/-- C9 counterexample. The claim says a call omitting the result count
returns at most 5 results, but the source default of
search_similar_chunks is limit = 10 (document_repository.py line 197): on
a store with six chunks, the default call returns six results. -/
theorem C9_counterexample_default_limit :
    5 < (search_similar_chunks dbB (fun _ _ => 0) []).length := by
  unfold search_similar_chunks
  rw [List.length_take, List.length_mergeSort, List.length_map]
  have h6 : (search_candidates dbB none).length = 6 := rfl
  rw [h6]
  decide

/-- C9 amended. A call of the similarity search without an explicit result
count uses the source default k = 10: it is the same call as with k = 10
and no scope, and returns at most 10 results (the one caller that wants 5,
DocumentAgent, passes limit=5 explicitly). -/
theorem C9_amended_default_limit_ten (db : DB) (dist : List ℚ → List ℚ → ℚ)
    (embedding : List ℚ) :
    search_similar_chunks db dist embedding = search_similar_chunks db dist embedding 10 none ∧
    (search_similar_chunks db dist embedding).length ≤ 10 := by
  unfold search_similar_chunks
  exact ⟨rfl, List.length_take_le _ _⟩

/-! ## Claims about updateStatus and the update route -/

/-- C7 counterexample. update_document_status overwrites error_message with
the given argument unconditionally (document_repository.py line 84), so an
update to COMPLETED with a message stores that message, refuting that an
error message is stored only when the new status is FAILED. -/
theorem C7_counterexample_error_message_stored :
    ¬ (∀ (db : DB) (document_id : Nat) (status : DocumentStatus) (msg : Option String)
        (now : Nat) (d2 : Document),
        (update_document_status db document_id status msg now).1 = some d2 →
        status ≠ DocumentStatus.failed → d2.error_message = none) := by
  intro hclaim
  have h := hclaim dbA 1 DocumentStatus.completed (some "boom") 5
    { docA with
      status := DocumentStatus.completed
      error_message := some "boom"
      completed_at := some 5
      updated_at := some 5 }
    (by decide) (by decide)
  exact absurd h (by decide)

/-- C7 amended. For every existing document, updateStatus sets the given
status, stamps the completion timestamp exactly when the new status is
COMPLETED (otherwise completed_at keeps its prior value), and always
overwrites error_message with the given argument (None when omitted by the
caller), whatever the status; the commit also stamps updated_at. -/
theorem C7_amended_update_status (db : DB) (document_id : Nat) (status : DocumentStatus)
    (error_message : Option String) (now : Nat) (d : Document)
    (h : get_document db document_id = some d) :
    (update_document_status db document_id status error_message now).1 =
      some { d with
        status := status
        error_message := error_message
        completed_at := if status == DocumentStatus.completed then some now else d.completed_at
        updated_at := some now } ∧
    get_document (update_document_status db document_id status error_message now).2 document_id =
      some { d with
        status := status
        error_message := error_message
        completed_at := if status == DocumentStatus.completed then some now else d.completed_at
        updated_at := some now } :=
  get_document_update_document_status db document_id status error_message now d h

/-- Witness for the amended C7: a FAILED update on the concrete store dbA. -/
theorem C7_amended_update_status_witness :
    (update_document_status dbA 1 DocumentStatus.failed (some "e") 3).1 =
      some { docA with
        status := DocumentStatus.failed
        error_message := some "e"
        completed_at :=
          if DocumentStatus.failed == DocumentStatus.completed then some 3 else docA.completed_at
        updated_at := some 3 } ∧
    get_document (update_document_status dbA 1 DocumentStatus.failed (some "e") 3).2 1 =
      some { docA with
        status := DocumentStatus.failed
        error_message := some "e"
        completed_at :=
          if DocumentStatus.failed == DocumentStatus.completed then some 3 else docA.completed_at
        updated_at := some 3 } :=
  C7_amended_update_status dbA 1 DocumentStatus.failed (some "e") 3 docA (by decide)

/-- C10 counterexample. The documents table declares updated_at with
onupdate=func.now() (document.py line 47), so committing the filename
change also bumps updated_at: the updated document is not the original
with only the filename replaced, refuting that every field but the
filename is unchanged. -/
theorem C10_counterexample_updated_at :
    ¬ (∀ d2 : Document,
        get_document (update_document_route dbA 1 (some "b.pdf") 7).2 1 = some d2 →
        d2 = { docA with filename := "b.pdf" }) := by
  intro hclaim
  have h := hclaim { docA with filename := "b.pdf", updated_at := some 7 } (by decide)
  exact absurd h (by decide)

/-- C10 amended. For every existing document, the document-update route
modifies at most the filename and the updated_at timestamp (bumped by
onupdate on commit); every other field and the chunk table are unchanged,
and when no filename is supplied the store is entirely unchanged. -/
theorem C10_amended_update_route (db : DB) (document_id : Nat) (filename : Option String)
    (now : Nat) (d : Document) (h : get_document db document_id = some d) :
    (filename = none →
      update_document_route db document_id filename now =
        (Except.ok ("No fields to update", none), db)) ∧
    (∀ f, filename = some f →
      get_document (update_document_route db document_id filename now).2 document_id =
        some { d with filename := f, updated_at := some now } ∧
      (update_document_route db document_id filename now).2.chunks = db.chunks) := by
  constructor
  · intro hn
    subst hn
    unfold update_document_route
    unfold get_document at h
    rw [h]
  · intro f hf
    subst hf
    unfold update_document_route
    unfold get_document at h ⊢
    rw [h]
    constructor
    · simp only
      rw [find?_updateWhere]
      · rw [h]
        rfl
      · intro x
        rfl
    · rfl

/-- Witness for the amended C10 on the concrete store dbA. -/
theorem C10_amended_update_route_witness :
    get_document (update_document_route dbA 1 (some "b.pdf") 7).2 1 =
      some { docA with filename := "b.pdf", updated_at := some 7 } ∧
    (update_document_route dbA 1 (some "b.pdf") 7).2.chunks = dbA.chunks :=
  (C10_amended_update_route dbA 1 (some "b.pdf") 7 docA (by decide)).2 "b.pdf" rfl

/-! ## Pipeline helper lemmas -/

theorem list_all_map {α β : Type} (l : List α) (f : α → β) (p : β → Bool) :
    (l.map f).all p = l.all (fun a => p (f a)) := by
  induction l with
  | nil => rfl
  | cons a t ih => simp only [List.map_cons, List.all_cons, ih]

theorem list_all_enumFrom {α : Type} (q : Nat × α → Bool) (r : α → Bool)
    (hq : ∀ i a, q (i, a) = r a) :
    ∀ (l : List α) (n : Nat), (l.enumFrom n).all q = l.all r := by
  intro l
  induction l with
  | nil => intro n; rfl
  | cons a t ih =>
      intro n
      simp only [List.enumFrom, List.all_cons, hq, ih]

theorem chunksDataOf_all (chunks0 : List ChunkData) (vecs : List (List ℚ)) :
    (chunksDataOf (embeddingsOf chunks0 vecs)).all chunkRowOk =
      (chunks0.zip vecs).all (fun q => q.2.length == EMBEDDING_DIMENSION) := by
  unfold chunksDataOf embeddingsOf
  rw [List.map_map, list_all_map]
  exact list_all_enumFrom _ _ (fun i a => rfl) _ 0

theorem chunksDataOf_chunk_index (chunks0 : List ChunkData) (vecs : List (List ℚ)) :
    (chunksDataOf (embeddingsOf chunks0 vecs)).map (fun c => c.chunk_index) =
      List.range (chunks0.zip vecs).length := by
  unfold chunksDataOf embeddingsOf
  rw [List.map_map, List.map_map]
  exact List.enum_map_fst _

theorem chunksDataOf_length (chunks0 : List ChunkData) (vecs : List (List ℚ)) :
    (chunksDataOf (embeddingsOf chunks0 vecs)).length = (chunks0.zip vecs).length := by
  simp [chunksDataOf, embeddingsOf]

/-- What the except-branch guarantees for an existing document: it ends
FAILED with the raised message, the chunk table untouched, the temp file
removed and the job failed with the same message. -/
theorem pipeline_fail_spec (document_id : Nat) (e : String) (now : Nat) (st : PipeState)
    (d : Document) (hdoc : get_document st.db document_id = some d) :
    get_document (pipeline_fail document_id e now st).db document_id =
      some { d with
        status := DocumentStatus.failed
        error_message := some e
        completed_at :=
          if DocumentStatus.failed == DocumentStatus.completed then some now else d.completed_at
        updated_at := some now } ∧
    (pipeline_fail document_id e now st).db.chunks = st.db.chunks ∧
    (pipeline_fail document_id e now st).tmpFileExists = false ∧
    (pipeline_fail document_id e now st).job.status = JobStatus.failed ∧
    (pipeline_fail document_id e now st).job.error = some e := by
  refine ⟨?_, ?_, rfl, rfl, rfl⟩
  · exact (get_document_update_document_status st.db document_id DocumentStatus.failed
      (some e) now d hdoc).2
  · exact update_document_status_chunks st.db document_id DocumentStatus.failed (some e) now

/-- C2. For every pipeline run in which the embedding step raises (the
conversion and chunking steps having succeeded), the run ends with the
document FAILED carrying the wrapped non-null error message, zero chunks
persisted for a document that had none, the temporary file removed, and
the job failed with the same message as the document. -/
theorem C2_embedding_failure_path (document_id : Nat) (filename : String) (chunk_size : Nat)
    (doc0 : MarkdownDoc) (chunks0 : List ChunkData)
    (chunker : MarkdownDoc → Nat → Except String (List ChunkData))
    (embed_documents : List String → Except String (List (List ℚ)))
    (m : String) (now : Nat) (st st2 : PipeState) (d : Document)
    (hchunker : chunker doc0 chunk_size = Except.ok chunks0)
    (hembed : embed_documents (chunks0.map (fun c => c.text)) = Except.error m)
    (hdoc : get_document st.db document_id = some d)
    (hcount : get_chunk_count st.db document_id = 0)
    (hst2 : st2 = process_document_task document_id filename chunk_size
      (Except.ok doc0) chunker embed_documents now st) :
    ∃ d2, get_document st2.db document_id = some d2 ∧
      d2.status = DocumentStatus.failed ∧
      d2.error_message = some ("500: Embedding generation failed: " ++ m) ∧
      get_chunk_count st2.db document_id = 0 ∧
      st2.tmpFileExists = false ∧
      st2.job.status = JobStatus.failed ∧
      st2.job.error = d2.error_message := by
  have hrun : st2 = pipeline_fail document_id ("500: Embedding generation failed: " ++ m) now st := by
    rw [hst2]
    simp only [process_document_task, convert_document, hchunker, hybrid_chunk_document,
      generate_embeddings, hembed]
  obtain ⟨h1, h2, h3, h4, h5⟩ := pipeline_fail_spec document_id
    ("500: Embedding generation failed: " ++ m) now st d hdoc
  refine ⟨_, hrun ▸ h1, rfl, rfl, ?_, hrun ▸ h3, hrun ▸ h4, hrun ▸ h5⟩
  rw [hrun]
  unfold get_chunk_count
  rw [h2]
  exact hcount

/-- Fresh one-document store before a pipeline run. -/
def db0 : DB := { documents := [docA], chunks := [], nextChunkId := 1 }

/-- The jobs_storage entry created at upload time. -/
def job0 : Job :=
  { job_id := "j1", document_id := 1, status := JobStatus.processing, filename := "a.pdf",
    created_at := 0, completed_at := none, error := none, result := none }

/-- Pipeline state right after upload: fresh store, temp file on disk. -/
def st0 : PipeState := { db := db0, tmpFileExists := true, job := job0 }

/-- Witness for C2: a concrete run over the one-document store in which the
embedder raises. -/
theorem C2_embedding_failure_path_witness :
    ∃ d2, get_document (process_document_task 1 "a.pdf" 512 (Except.ok ⟨"md"⟩)
        (fun _ _ => Except.ok [⟨"t", "m"⟩]) (fun _ => Except.error "boom") 9 st0).db 1 =
          some d2 ∧
      d2.status = DocumentStatus.failed ∧
      d2.error_message = some ("500: Embedding generation failed: " ++ "boom") ∧
      get_chunk_count (process_document_task 1 "a.pdf" 512 (Except.ok ⟨"md"⟩)
        (fun _ _ => Except.ok [⟨"t", "m"⟩]) (fun _ => Except.error "boom") 9 st0).db 1 = 0 ∧
      (process_document_task 1 "a.pdf" 512 (Except.ok ⟨"md"⟩)
        (fun _ _ => Except.ok [⟨"t", "m"⟩]) (fun _ => Except.error "boom") 9 st0).tmpFileExists
          = false ∧
      (process_document_task 1 "a.pdf" 512 (Except.ok ⟨"md"⟩)
        (fun _ _ => Except.ok [⟨"t", "m"⟩]) (fun _ => Except.error "boom") 9 st0).job.status
          = JobStatus.failed ∧
      (process_document_task 1 "a.pdf" 512 (Except.ok ⟨"md"⟩)
        (fun _ _ => Except.ok [⟨"t", "m"⟩]) (fun _ => Except.error "boom") 9 st0).job.error
          = d2.error_message :=
  C2_embedding_failure_path 1 "a.pdf" 512 ⟨"md"⟩ [⟨"t", "m"⟩]
    (fun _ _ => Except.ok [⟨"t", "m"⟩]) (fun _ => Except.error "boom") "boom" 9
    st0
    (process_document_task 1 "a.pdf" 512 (Except.ok ⟨"md"⟩)
      (fun _ _ => Except.ok [⟨"t", "m"⟩]) (fun _ => Except.error "boom") 9 st0)
    docA rfl rfl rfl rfl rfl

theorem exists_doc_any (db : DB) (document_id : Nat) (d : Document)
    (h : get_document db document_id = some d) :
    db.documents.any (fun x => x.id == document_id) = true := by
  unfold get_document at h
  have h2 := List.find?_some h
  exact List.any_eq_true.mpr ⟨d, List.mem_of_find?_eq_some h, h2⟩

/-- C3. A pipeline run whose conversion, chunking and embedding all succeed,
on a fresh document with no pre-existing chunks, with the embedder
returning one valid vector per input text in input order, completes with
status COMPLETED, and then the stored num_chunks equals the number of
persisted chunks of the document, whose chunk_index values are exactly
0..num_chunks-1 in source order, without gaps or duplicates. -/
theorem C3_completed_chunk_invariants (document_id : Nat) (filename : String)
    (chunk_size : Nat) (doc0 : MarkdownDoc) (chunks0 : List ChunkData)
    (vecs : List (List ℚ))
    (chunker : MarkdownDoc → Nat → Except String (List ChunkData))
    (embed_documents : List String → Except String (List (List ℚ)))
    (now : Nat) (st st2 : PipeState) (d : Document)
    (hchunker : chunker doc0 chunk_size = Except.ok chunks0)
    (hembed : embed_documents (chunks0.map (fun c => c.text)) = Except.ok vecs)
    (hlen : vecs.length = chunks0.length)
    (hvalid : ∀ q ∈ chunks0.zip vecs, q.2.length = EMBEDDING_DIMENSION)
    (hdoc : get_document st.db document_id = some d)
    (hcount : get_chunk_count st.db document_id = 0)
    (hst2 : st2 = process_document_task document_id filename chunk_size
      (Except.ok doc0) chunker embed_documents now st) :
    ∃ d2, get_document st2.db document_id = some d2 ∧
      d2.status = DocumentStatus.completed ∧
      d2.num_chunks = get_chunk_count st2.db document_id ∧
      (st2.db.chunks.filter (fun c => c.document_id == document_id)).map
          (fun c => c.chunk_index) = List.range d2.num_chunks := by
  have hd1 := get_document_update_document_content st.db document_id doc0.markdown
    doc0.markdown.length chunks0.length now d hdoc
  have hany : (update_document_content st.db document_id doc0.markdown
      doc0.markdown.length chunks0.length now).2.documents.any
        (fun x => x.id == document_id) = true :=
    exists_doc_any _ _ _ hd1
  have hall : (chunksDataOf (embeddingsOf chunks0 vecs)).all chunkRowOk = true := by
    rw [chunksDataOf_all, List.all_eq_true]
    intro q hq
    simpa using hvalid q hq
  have hcond : ((update_document_content st.db document_id doc0.markdown
      doc0.markdown.length chunks0.length now).2.documents.any
        (fun x => x.id == document_id) &&
      (chunksDataOf (embeddingsOf chunks0 vecs)).all chunkRowOk) = true := by
    rw [hany, hall]
    rfl
  have hpair : create_chunks_batch (update_document_content st.db document_id doc0.markdown
        doc0.markdown.length chunks0.length now).2 document_id
        (chunksDataOf (embeddingsOf chunks0 vecs)) now =
      (Except.ok (buildChunkRows document_id
          (update_document_content st.db document_id doc0.markdown
            doc0.markdown.length chunks0.length now).2.nextChunkId now
          (chunksDataOf (embeddingsOf chunks0 vecs))),
        { (update_document_content st.db document_id doc0.markdown
            doc0.markdown.length chunks0.length now).2 with
          chunks := (update_document_content st.db document_id doc0.markdown
              doc0.markdown.length chunks0.length now).2.chunks ++
            buildChunkRows document_id
              (update_document_content st.db document_id doc0.markdown
                doc0.markdown.length chunks0.length now).2.nextChunkId now
              (chunksDataOf (embeddingsOf chunks0 vecs))
          nextChunkId := (update_document_content st.db document_id doc0.markdown
              doc0.markdown.length chunks0.length now).2.nextChunkId +
            (buildChunkRows document_id
              (update_document_content st.db document_id doc0.markdown
                doc0.markdown.length chunks0.length now).2.nextChunkId now
              (chunksDataOf (embeddingsOf chunks0 vecs))).length }) := by
    unfold create_chunks_batch
    rw [if_pos hcond]
  have hrun : st2 =
      { db := (update_document_status
          { (update_document_content st.db document_id doc0.markdown
              doc0.markdown.length chunks0.length now).2 with
            chunks := (update_document_content st.db document_id doc0.markdown
                doc0.markdown.length chunks0.length now).2.chunks ++
              buildChunkRows document_id
                (update_document_content st.db document_id doc0.markdown
                  doc0.markdown.length chunks0.length now).2.nextChunkId now
                (chunksDataOf (embeddingsOf chunks0 vecs))
            nextChunkId := (update_document_content st.db document_id doc0.markdown
                doc0.markdown.length chunks0.length now).2.nextChunkId +
              (buildChunkRows document_id
                (update_document_content st.db document_id doc0.markdown
                  doc0.markdown.length chunks0.length now).2.nextChunkId now
                (chunksDataOf (embeddingsOf chunks0 vecs))).length }
          document_id DocumentStatus.completed none now).2
        tmpFileExists := false
        job := { st.job with
          status := JobStatus.completed
          completed_at := some now
          result := some
            { status := "success"
              filename := filename
              markdown_length := doc0.markdown.length
              num_chunks := chunks0.length } } } := by
    rw [hst2]
    simp only [process_document_task, convert_document, hchunker, hybrid_chunk_document,
      generate_embeddings, hembed, hpair]
  have hd2 : get_document
      { (update_document_content st.db document_id doc0.markdown
          doc0.markdown.length chunks0.length now).2 with
        chunks := (update_document_content st.db document_id doc0.markdown
            doc0.markdown.length chunks0.length now).2.chunks ++
          buildChunkRows document_id
            (update_document_content st.db document_id doc0.markdown
              doc0.markdown.length chunks0.length now).2.nextChunkId now
            (chunksDataOf (embeddingsOf chunks0 vecs))
        nextChunkId := (update_document_content st.db document_id doc0.markdown
            doc0.markdown.length chunks0.length now).2.nextChunkId +
          (buildChunkRows document_id
            (update_document_content st.db document_id doc0.markdown
              doc0.markdown.length chunks0.length now).2.nextChunkId now
            (chunksDataOf (embeddingsOf chunks0 vecs))).length }
      document_id =
      some { d with
        markdown_content := some doc0.markdown
        markdown_length := some doc0.markdown.length
        num_chunks := chunks0.length
        updated_at := some now } := hd1
  have hd3 := get_document_update_document_status _ document_id DocumentStatus.completed
    none now _ hd2
  have h1 : st2.db.chunks = st.db.chunks ++ buildChunkRows document_id
      (update_document_content st.db document_id doc0.markdown
        doc0.markdown.length chunks0.length now).2.nextChunkId now
      (chunksDataOf (embeddingsOf chunks0 vecs)) := by
    rw [hrun]
    simp only [update_document_status_chunks, update_document_content_chunks]
  have hself : (buildChunkRows document_id
      (update_document_content st.db document_id doc0.markdown
        doc0.markdown.length chunks0.length now).2.nextChunkId now
      (chunksDataOf (embeddingsOf chunks0 vecs))).filter
        (fun c => c.document_id == document_id) =
      buildChunkRows document_id
        (update_document_content st.db document_id doc0.markdown
          doc0.markdown.length chunks0.length now).2.nextChunkId now
        (chunksDataOf (embeddingsOf chunks0 vecs)) :=
    List.filter_eq_self.mpr (fun c hc => by
      simp [buildChunkRows_document_id _ _ _ _ c hc])
  have hnil : st.db.chunks.filter (fun c => c.document_id == document_id) = [] :=
    List.length_eq_zero.mp hcount
  have hcount2 : get_chunk_count st2.db document_id = chunks0.length := by
    unfold get_chunk_count
    rw [h1, List.filter_append, hnil, List.nil_append, hself, buildChunkRows_length,
      chunksDataOf_length, List.length_zip, hlen, Nat.min_self]
  refine ⟨_, by rw [hrun]; exact hd3.2, rfl, ?_, ?_⟩
  · exact hcount2.symm
  · rw [h1, List.filter_append, hnil, List.nil_append, hself, buildChunkRows_chunk_index,
      chunksDataOf_chunk_index, List.length_zip, hlen, Nat.min_self]

/-- A well-formed embedding vector for the Vector(1536) column. -/
def vec0 : List ℚ := List.replicate 1536 0

/-- Witness for C3: a concrete successful run over the fresh store with one
chunk embedded by a 1536-dimensional vector. -/
theorem C3_completed_chunk_invariants_witness :
    ∃ d2, get_document (process_document_task 1 "a.pdf" 512 (Except.ok ⟨"md"⟩)
        (fun _ _ => Except.ok [⟨"t", "m"⟩]) (fun _ => Except.ok [vec0]) 9 st0).db 1 =
          some d2 ∧
      d2.status = DocumentStatus.completed ∧
      d2.num_chunks = get_chunk_count (process_document_task 1 "a.pdf" 512 (Except.ok ⟨"md"⟩)
        (fun _ _ => Except.ok [⟨"t", "m"⟩]) (fun _ => Except.ok [vec0]) 9 st0).db 1 ∧
      ((process_document_task 1 "a.pdf" 512 (Except.ok ⟨"md"⟩)
          (fun _ _ => Except.ok [⟨"t", "m"⟩]) (fun _ => Except.ok [vec0]) 9 st0).db.chunks.filter
            (fun c => c.document_id == 1)).map (fun c => c.chunk_index) =
        List.range d2.num_chunks :=
  C3_completed_chunk_invariants 1 "a.pdf" 512 ⟨"md"⟩ [⟨"t", "m"⟩] [vec0]
    (fun _ _ => Except.ok [⟨"t", "m"⟩]) (fun _ => Except.ok [vec0]) 9 st0
    (process_document_task 1 "a.pdf" 512 (Except.ok ⟨"md"⟩)
      (fun _ _ => Except.ok [⟨"t", "m"⟩]) (fun _ => Except.ok [vec0]) 9 st0)
    docA rfl rfl rfl
    (by
      intro q hq
      have hq2 : q = (⟨"t", "m"⟩, vec0) := by simpa using hq
      subst hq2
      show (List.replicate 1536 (0 : ℚ)).length = EMBEDDING_DIMENSION
      rw [List.length_replicate]
      rfl)
    rfl rfl rfl

/-- C6. For every pipeline run over an existing document: first, the run
ends with the document COMPLETED only when conversion, chunking and
embedding all succeeded and both persistence steps went through — the
content update is visible on the completed document and the whole batch of
zipped chunk/vector pairs is persisted; second, when the three stages
succeed but the bulk insert fails on an invalid row (a vector of the wrong
length), the document is never left COMPLETED: the error handler marks it
FAILED. -/
theorem C6_completed_only_after_persist (document_id : Nat) (filename : String)
    (chunk_size : Nat) (converter : Except String MarkdownDoc)
    (chunker : MarkdownDoc → Nat → Except String (List ChunkData))
    (embed_documents : List String → Except String (List (List ℚ)))
    (now : Nat) (st st2 : PipeState) (d : Document)
    (hdoc : get_document st.db document_id = some d)
    (hst2 : st2 = process_document_task document_id filename chunk_size converter chunker
      embed_documents now st) :
    (∀ d2, get_document st2.db document_id = some d2 →
      d2.status = DocumentStatus.completed →
      ∃ doc0 chunks0 vecs,
        converter = Except.ok doc0 ∧
        chunker doc0 chunk_size = Except.ok chunks0 ∧
        embed_documents (chunks0.map (fun c => c.text)) = Except.ok vecs ∧
        d2.markdown_content = some doc0.markdown ∧
        get_chunk_count st2.db document_id =
          get_chunk_count st.db document_id + (chunks0.zip vecs).length) ∧
    (∀ doc0 chunks0 vecs,
      converter = Except.ok doc0 →
      chunker doc0 chunk_size = Except.ok chunks0 →
      embed_documents (chunks0.map (fun c => c.text)) = Except.ok vecs →
      (∃ q ∈ chunks0.zip vecs, q.2.length ≠ EMBEDDING_DIMENSION) →
      ∃ d2, get_document st2.db document_id = some d2 ∧
        d2.status = DocumentStatus.failed) := by
  constructor
  · intro d2 hfinal hstatus
    cases hconv : converter with
    | error e =>
        exfalso
        have hrun : st2 =
            pipeline_fail document_id ("500: Document conversion failed: " ++ e) now st := by
          rw [hst2, hconv]
          simp only [process_document_task, convert_document]
        rw [hrun] at hfinal
        have hget := (pipeline_fail_spec document_id
          ("500: Document conversion failed: " ++ e) now st d hdoc).1
        have hd2 := Option.some.inj (hget.symm.trans hfinal)
        rw [← hd2] at hstatus
        simp at hstatus
    | ok doc0 =>
        cases hch : chunker doc0 chunk_size with
        | error e =>
            exfalso
            have hrun : st2 =
                pipeline_fail document_id ("500: Text chunking failed: " ++ e) now st := by
              rw [hst2, hconv]
              simp only [process_document_task, convert_document, hch, hybrid_chunk_document]
            rw [hrun] at hfinal
            have hget := (pipeline_fail_spec document_id
              ("500: Text chunking failed: " ++ e) now st d hdoc).1
            have hd2 := Option.some.inj (hget.symm.trans hfinal)
            rw [← hd2] at hstatus
            simp at hstatus
        | ok chunks0 =>
            cases hem : embed_documents (chunks0.map (fun c => c.text)) with
            | error e =>
                exfalso
                have hrun : st2 = pipeline_fail document_id
                    ("500: Embedding generation failed: " ++ e) now st := by
                  rw [hst2, hconv]
                  simp only [process_document_task, convert_document, hch,
                    hybrid_chunk_document, generate_embeddings, hem]
                rw [hrun] at hfinal
                have hget := (pipeline_fail_spec document_id
                  ("500: Embedding generation failed: " ++ e) now st d hdoc).1
                have hd2 := Option.some.inj (hget.symm.trans hfinal)
                rw [← hd2] at hstatus
                simp at hstatus
            | ok vecs =>
                have hd1 := get_document_update_document_content st.db document_id
                  doc0.markdown doc0.markdown.length chunks0.length now d hdoc
                by_cases hcond : ((update_document_content st.db document_id doc0.markdown
                    doc0.markdown.length chunks0.length now).2.documents.any
                      (fun x => x.id == document_id) &&
                    (chunksDataOf (embeddingsOf chunks0 vecs)).all chunkRowOk) = true
                · have hpair : create_chunks_batch (update_document_content st.db document_id
                      doc0.markdown doc0.markdown.length chunks0.length now).2 document_id
                      (chunksDataOf (embeddingsOf chunks0 vecs)) now =
                    (Except.ok (buildChunkRows document_id
                        (update_document_content st.db document_id doc0.markdown
                          doc0.markdown.length chunks0.length now).2.nextChunkId now
                        (chunksDataOf (embeddingsOf chunks0 vecs))),
                      { (update_document_content st.db document_id doc0.markdown
                          doc0.markdown.length chunks0.length now).2 with
                        chunks := (update_document_content st.db document_id doc0.markdown
                            doc0.markdown.length chunks0.length now).2.chunks ++
                          buildChunkRows document_id
                            (update_document_content st.db document_id doc0.markdown
                              doc0.markdown.length chunks0.length now).2.nextChunkId now
                            (chunksDataOf (embeddingsOf chunks0 vecs))
                        nextChunkId := (update_document_content st.db document_id doc0.markdown
                            doc0.markdown.length chunks0.length now).2.nextChunkId +
                          (buildChunkRows document_id
                            (update_document_content st.db document_id doc0.markdown
                              doc0.markdown.length chunks0.length now).2.nextChunkId now
                            (chunksDataOf (embeddingsOf chunks0 vecs))).length }) := by
                    unfold create_chunks_batch
                    rw [if_pos hcond]
                  have hrun : st2 =
                      { db := (update_document_status
                          { (update_document_content st.db document_id doc0.markdown
                              doc0.markdown.length chunks0.length now).2 with
                            chunks := (update_document_content st.db document_id doc0.markdown
                                doc0.markdown.length chunks0.length now).2.chunks ++
                              buildChunkRows document_id
                                (update_document_content st.db document_id doc0.markdown
                                  doc0.markdown.length chunks0.length now).2.nextChunkId now
                                (chunksDataOf (embeddingsOf chunks0 vecs))
                            nextChunkId := (update_document_content st.db document_id
                                doc0.markdown doc0.markdown.length chunks0.length
                                now).2.nextChunkId +
                              (buildChunkRows document_id
                                (update_document_content st.db document_id doc0.markdown
                                  doc0.markdown.length chunks0.length now).2.nextChunkId now
                                (chunksDataOf (embeddingsOf chunks0 vecs))).length }
                          document_id DocumentStatus.completed none now).2
                        tmpFileExists := false
                        job := { st.job with
                          status := JobStatus.completed
                          completed_at := some now
                          result := some
                            { status := "success"
                              filename := filename
                              markdown_length := doc0.markdown.length
                              num_chunks := chunks0.length } } } := by
                    rw [hst2, hconv]
                    simp only [process_document_task, convert_document, hch,
                      hybrid_chunk_document, generate_embeddings, hem, hpair]
                  have hd2mid : get_document
                      { (update_document_content st.db document_id doc0.markdown
                          doc0.markdown.length chunks0.length now).2 with
                        chunks := (update_document_content st.db document_id doc0.markdown
                            doc0.markdown.length chunks0.length now).2.chunks ++
                          buildChunkRows document_id
                            (update_document_content st.db document_id doc0.markdown
                              doc0.markdown.length chunks0.length now).2.nextChunkId now
                            (chunksDataOf (embeddingsOf chunks0 vecs))
                        nextChunkId := (update_document_content st.db document_id doc0.markdown
                            doc0.markdown.length chunks0.length now).2.nextChunkId +
                          (buildChunkRows document_id
                            (update_document_content st.db document_id doc0.markdown
                              doc0.markdown.length chunks0.length now).2.nextChunkId now
                            (chunksDataOf (embeddingsOf chunks0 vecs))).length }
                      document_id =
                      some { d with
                        markdown_content := some doc0.markdown
                        markdown_length := some doc0.markdown.length
                        num_chunks := chunks0.length
                        updated_at := some now } := hd1
                  have hd3 := get_document_update_document_status _ document_id
                    DocumentStatus.completed none now _ hd2mid
                  have hfinal2 : get_document st2.db document_id =
                      some { d with
                        markdown_content := some doc0.markdown
                        markdown_length := some doc0.markdown.length
                        num_chunks := chunks0.length
                        updated_at := some now
                        status := DocumentStatus.completed
                        error_message := none
                        completed_at := some now } := by
                    rw [hrun]
                    exact hd3.2
                  have hd2eq := Option.some.inj (hfinal2.symm.trans hfinal)
                  refine ⟨doc0, chunks0, vecs, rfl, hch, hem, ?_, ?_⟩
                  · rw [← hd2eq]
                  · have h1 : st2.db.chunks = st.db.chunks ++ buildChunkRows document_id
                        (update_document_content st.db document_id doc0.markdown
                          doc0.markdown.length chunks0.length now).2.nextChunkId now
                        (chunksDataOf (embeddingsOf chunks0 vecs)) := by
                      rw [hrun]
                      simp only [update_document_status_chunks, update_document_content_chunks]
                    unfold get_chunk_count
                    rw [h1]
                    rw [get_chunk_count_append_rows st.db document_id
                      (update_document_content st.db document_id doc0.markdown
                        doc0.markdown.length chunks0.length now).2.nextChunkId now
                      (chunksDataOf (embeddingsOf chunks0 vecs)), chunksDataOf_length]
                · exfalso
                  have hpairE : create_chunks_batch (update_document_content st.db document_id
                      doc0.markdown doc0.markdown.length chunks0.length now).2 document_id
                      (chunksDataOf (embeddingsOf chunks0 vecs)) now =
                      (Except.error "chunk batch insert failed",
                        (update_document_content st.db document_id doc0.markdown
                          doc0.markdown.length chunks0.length now).2) := by
                    unfold create_chunks_batch
                    rw [if_neg hcond]
                  have hrun : st2 = pipeline_fail document_id "chunk batch insert failed" now
                      { st with db := (update_document_content st.db document_id doc0.markdown
                          doc0.markdown.length chunks0.length now).2 } := by
                    rw [hst2, hconv]
                    simp only [process_document_task, convert_document, hch,
                      hybrid_chunk_document, generate_embeddings, hem, hpairE]
                  have hget := (pipeline_fail_spec document_id "chunk batch insert failed" now
                    { st with db := (update_document_content st.db document_id doc0.markdown
                        doc0.markdown.length chunks0.length now).2 }
                    { d with
                      markdown_content := some doc0.markdown
                      markdown_length := some doc0.markdown.length
                      num_chunks := chunks0.length
                      updated_at := some now } hd1).1
                  rw [hrun] at hfinal
                  have hd2eq := Option.some.inj (hget.symm.trans hfinal)
                  rw [← hd2eq] at hstatus
                  simp at hstatus
  · intro doc0 chunks0 vecs hconv hch hem hbad
    obtain ⟨q, hq, hqbad⟩ := hbad
    have hd1 := get_document_update_document_content st.db document_id
      doc0.markdown doc0.markdown.length chunks0.length now d hdoc
    have hallF : (chunksDataOf (embeddingsOf chunks0 vecs)).all chunkRowOk = false := by
      rw [chunksDataOf_all]
      exact List.all_eq_false.mpr ⟨q, hq, by simpa using hqbad⟩
    have hcondF : ¬ (((update_document_content st.db document_id doc0.markdown
        doc0.markdown.length chunks0.length now).2.documents.any
          (fun x => x.id == document_id) &&
        (chunksDataOf (embeddingsOf chunks0 vecs)).all chunkRowOk) = true) := by
      rw [hallF, Bool.and_false]
      exact Bool.false_ne_true
    have hpairE : create_chunks_batch (update_document_content st.db document_id
        doc0.markdown doc0.markdown.length chunks0.length now).2 document_id
        (chunksDataOf (embeddingsOf chunks0 vecs)) now =
        (Except.error "chunk batch insert failed",
          (update_document_content st.db document_id doc0.markdown
            doc0.markdown.length chunks0.length now).2) := by
      unfold create_chunks_batch
      rw [if_neg hcondF]
    have hrun : st2 = pipeline_fail document_id "chunk batch insert failed" now
        { st with db := (update_document_content st.db document_id doc0.markdown
            doc0.markdown.length chunks0.length now).2 } := by
      rw [hst2, hconv]
      simp only [process_document_task, convert_document, hch,
        hybrid_chunk_document, generate_embeddings, hem, hpairE]
    have hget := (pipeline_fail_spec document_id "chunk batch insert failed" now
      { st with db := (update_document_content st.db document_id doc0.markdown
          doc0.markdown.length chunks0.length now).2 }
      { d with
        markdown_content := some doc0.markdown
        markdown_length := some doc0.markdown.length
        num_chunks := chunks0.length
        updated_at := some now } hd1).1
    have hres : get_document st2.db document_id =
        some { d with
          markdown_content := some doc0.markdown
          markdown_length := some doc0.markdown.length
          num_chunks := chunks0.length
          updated_at := some now
          status := DocumentStatus.failed
          error_message := some "chunk batch insert failed"
          completed_at := if (DocumentStatus.failed == DocumentStatus.completed) = true
            then some now else d.completed_at } := by
      rw [hrun]
      exact hget
    exact ⟨_, hres, rfl⟩

/-- Witness for C6: a concrete run in which conversion, chunking and
embedding succeed but the single embedding vector has length 0, so the bulk
insert fails and the error handler marks the document FAILED. -/
theorem C6_completed_only_after_persist_witness :
    ∃ d2, get_document (process_document_task 1 "a.pdf" 512 (Except.ok ⟨"md"⟩)
        (fun _ _ => Except.ok [⟨"t", "m"⟩]) (fun _ => Except.ok [[]]) 9 st0).db 1 =
          some d2 ∧
      d2.status = DocumentStatus.failed :=
  (C6_completed_only_after_persist 1 "a.pdf" 512 (Except.ok ⟨"md"⟩)
    (fun _ _ => Except.ok [⟨"t", "m"⟩]) (fun _ => Except.ok [[]]) 9 st0
    (process_document_task 1 "a.pdf" 512 (Except.ok ⟨"md"⟩)
      (fun _ _ => Except.ok [⟨"t", "m"⟩]) (fun _ => Except.ok [[]]) 9 st0)
    docA rfl rfl).2 ⟨"md"⟩ [⟨"t", "m"⟩] [[]] rfl rfl rfl
    ⟨(⟨"t", "m"⟩, []), by decide, by decide⟩

/-- Witness for C8 on the concrete store dbA (the foreign-key hypothesis
holds there), instantiated at the default offset and limit. -/
theorem C8_delete_document_cascades_witness :
    (delete_document dbA 1).1 = (get_document dbA 1).isSome ∧
    get_document (delete_document dbA 1).2 1 = none ∧
    get_chunks_by_document (delete_document dbA 1).2 1 0 100 = [] :=
  ⟨(C8_delete_document_cascades dbA 1 (by decide)).1,
   (C8_delete_document_cascades dbA 1 (by decide)).2.1,
   (C8_delete_document_cascades dbA 1 (by decide)).2.2 0 100⟩

end BaseKnowledge
